import Mathlib

/-!
# Verification of the `player_path` profiling engine

Shallow embedding of `src/analysis/profiling.py` together with the
configuration tables of `src/config/settings.py`.

Modelling conventions:
* Python `int` is modelled as `ℤ` (or `ℕ` where the source value is an index);
* Python `float` is modelled as an exact numeric type: `ℚ` for values that are
  only stored and compared, and `ℝ` for the playstyle-score arithmetic (which
  divides and takes a square root);
* Python `dict` (insertion ordered, unique keys) is modelled as an association
  `List (key × value)`, iterated in list order; lookup takes the first match;
* `None` and absent JSON fields are modelled with `Option`;
* exceptions that the source catches are modelled with `Option` results;
  a caught `ValueError` corresponds to a `none` from the parser.
-/

namespace PlayerPath

/-! ## Configuration tables (src/config/settings.py) -/

/-- `SKILLS` from settings.py. -/
def SKILLS : List String :=
  ["overall", "attack", "defence", "strength", "hitpoints", "ranged",
   "prayer", "magic", "cooking", "woodcutting", "fletching", "fishing",
   "firemaking", "crafting", "smithing", "mining", "herblore", "agility",
   "thieving", "slayer", "farming", "runecrafting", "hunter", "construction"]

/-- `SKILL_CATEGORIES` from settings.py (insertion order preserved). -/
def SKILL_CATEGORIES : List (String × List String) :=
  [("Combat", ["attack", "strength", "defence", "hitpoints", "ranged", "magic", "prayer"]),
   ("Gathering", ["mining", "fishing", "woodcutting", "farming", "hunter"]),
   ("Artisan", ["smithing", "crafting", "fletching", "cooking", "firemaking", "herblore", "construction"]),
   ("Support", ["agility", "thieving", "slayer", "runecrafting"])]

/-- `BOSS_CATEGORIES` from settings.py (insertion order preserved). -/
def BOSS_CATEGORIES : List (String × List String) :=
  [("Raids", ["chambers_of_xeric", "chambers_of_xeric_challenge_mode", "theatre_of_blood",
              "theatre_of_blood_hard_mode", "tombs_of_amascut", "tombs_of_amascut_expert"]),
   ("GWD", ["commander_zilyana", "general_graardor", "kreearra", "kril_tsutsaroth", "nex"]),
   ("Slayer", ["cerberus", "abyssal_sire", "kraken", "thermonuclear_smoke_devil",
               "grotesque_guardians", "alchemical_hydra"]),
   ("Wilderness", ["callisto", "venenatis", "vetion", "chaos_elemental", "scorpia",
                   "king_black_dragon", "chaos_fanatic", "crazy_archaeologist"]),
   ("Other", ["zulrah", "vorkath", "corporeal_beast", "giant_mole", "kalphite_queen",
              "dagannoth_prime", "dagannoth_rex", "dagannoth_supreme", "sarachnis",
              "the_gauntlet", "the_corrupted_gauntlet", "nightmare", "phosanis_nightmare",
              "phantom_muspah", "duke_sucellus", "the_leviathan", "the_whisperer", "vardorvis"])]

/-- `ARCHETYPE_CONFIG["ehp_ehb_ratio_skiller"]` (3.0). -/
noncomputable def ehpEhbRatioSkiller : ℝ := 3

/-- `ARCHETYPE_CONFIG["ehp_ehb_ratio_pvmer"]` (0.5). -/
noncomputable def ehpEhbRatioPvmer : ℝ := 1 / 2

/-- `ARCHETYPE_CONFIG["boss_diversity_high"]` (10). -/
noncomputable def bossDiversityHigh : ℝ := 10

/-- `ARCHETYPE_CONFIG["raid_kc_threshold"]` (50). -/
noncomputable def raidKcThreshold : ℝ := 50

/-! ## Association-list lookup (Python dict access) -/

/-- First-match lookup in an association list; Python `d[k]` / `d.get(k)`
on a dict with unique keys. -/
def alookup (l : List (String × α)) (k : String) : Option α :=
  (l.find? (fun kv => kv.1 = k)).map (·.2)

/-! ## SkillData.virtual_level (profiling.py lines 20-42)

`math.floor(l + 300 * 2 ** (l / 7))` is evaluated exactly:
`⌊l + 300·2^(l/7)⌋ = l + n` where `n` is the unique natural number with
`n ^ 7 ≤ 300 ^ 7 * 2 ^ l < (n + 1) ^ 7`, found by bisection below.
-/

/-- Bisection step for the integer 7th root: maintains `lo ^ 7 ≤ m < hi ^ 7`
and returns `lo` once the bracket has width one (or fuel runs out; the fuel
supplied by `floorPow` always suffices for the bracket it passes). -/
def rt7Aux (m : ℕ) : ℕ → ℕ → ℕ → ℕ
  | 0, lo, _ => lo
  | fuel + 1, lo, hi =>
    let mid := (lo + hi) / 2
    if mid ≤ lo then lo
    else if mid ^ 7 ≤ m then rt7Aux m fuel mid hi
    else rt7Aux m fuel lo mid

/-- `⌊300 * 2 ^ (l / 7 : ℝ)⌋` computed exactly: the initial bracket
`[300·2^⌊l/7⌋, 300·2^(⌊l/7⌋+1)]` contains the root and has width at most
`300·2^18` for `l ≤ 126`, so 40 bisection steps converge. -/
def floorPow (l : ℕ) : ℕ :=
  rt7Aux (300 ^ 7 * 2 ^ l) 40 (300 * 2 ^ (l / 7)) (300 * 2 ^ (l / 7 + 1) + 1)

/-- `math.floor(l + 300 * 2 ** (l / 7))`, exactly. -/
def floorTerm (l : ℕ) : ℕ := l + floorPow l

/-- `int(sum(math.floor(l + 300 * 2**(l/7)) / 4 for l in range(1, level + 1)))`:
every summand is an exact quarter-integer, so the truncated float sum equals
the floor of the rational sum, i.e. natural division by 4. -/
def xpForLevel (level : ℕ) : ℕ := ((List.range' 1 level).map floorTerm).sum / 4

/-- The hard-coded `xp_table` of `SkillData.virtual_level` (99 entries,
levels 1 through 99). -/
def xpTable : List ℕ :=
  [0, 83, 174, 276, 388, 512, 650, 801, 969, 1154, 1358, 1584, 1833, 2107,
   2411, 2746, 3115, 3523, 3973, 4470, 5018, 5624, 6291, 7028, 7842, 8740,
   9730, 10824, 12031, 13363, 14833, 16456, 18247, 20224, 22406, 24815,
   27473, 30408, 33648, 37224, 41171, 45529, 50339, 55649, 61512, 67983,
   75127, 83014, 91721, 101333, 111945, 123660, 136594, 150872, 166636,
   184040, 203254, 224466, 247886, 273742, 302288, 333804, 368599, 407015,
   449428, 496254, 547953, 605032, 668051, 737627, 814445, 899257, 992895,
   1096278, 1210421, 1336443, 1475581, 1629200, 1798808, 1986068, 2192818,
   2421087, 2673114, 2951373, 3258594, 3597792, 3972294, 4385776, 4842295,
   5346332, 5902831, 6517253, 7195629, 7944614, 8771558, 9684577, 10692629,
   11805606, 13034431]

/-- `SkillData` (profiling.py lines 11-18). -/
structure SkillData where
  name : String
  level : ℤ
  experience : ℤ
  rank : ℤ
  ehp : ℚ := 0
deriving DecidableEq, Repr

/-- `SkillData.virtual_level` (profiling.py lines 20-42): below the level-99
threshold the nominal level is returned; otherwise the loop
`for level in range(99, 127)` returns `level - 1` at the first level whose
formula value exceeds the experience, and 126 if none does. -/
def SkillData.virtual_level (s : SkillData) : ℤ :=
  if s.experience < 13034431 then s.level
  else
    match (List.range' 99 28).find? (fun level => s.experience < (xpForLevel level : ℤ)) with
    | some level => (level : ℤ) - 1
    | none => 126

/-! ## Timestamps

Modelled from the spec: `datetime.fromisoformat` and `datetime` comparison are
Python standard-library code, not part of this repository.  Per §4.1/§6 the
accepted inputs are ISO-8601 strings `YYYY-MM-DD[THH:MM[:SS[.f{1-6}]]][±HH:MM]`
(a trailing `Z` is rewritten to `+00:00` by the callers before parsing); the
parser below accepts exactly that shape with calendar-valid fields and fails
(`none`, the caught `ValueError`) otherwise.  Comparison is by the instant the
fields denote; per the contract all timestamps carry the same (UTC) offset, so
the mixed naive/aware `TypeError` of Python never arises and is not modelled.
-/

/-- A parsed timestamp. -/
structure DateTime where
  year : ℕ
  month : ℕ
  day : ℕ
  hour : ℕ
  minute : ℕ
  second : ℕ
  microsecond : ℕ
  offsetMinutes : ℤ
deriving DecidableEq, Repr

/-- Gregorian leap-year rule. -/
def isLeapYear (y : ℕ) : Bool := y % 4 = 0 && (y % 100 ≠ 0 || y % 400 = 0)

/-- Days in a month of the proleptic Gregorian calendar. -/
def daysInMonth (y m : ℕ) : ℕ :=
  if m = 2 then (if isLeapYear y then 29 else 28)
  else if m = 4 || m = 6 || m = 9 || m = 11 then 30
  else 31

/-- Days since 1970-01-01 of a civil date (standard era/year-of-era formula). -/
def daysFromCivil (y m d : ℕ) : ℤ :=
  let yy : ℤ := if m ≤ 2 then (y : ℤ) - 1 else (y : ℤ)
  let era : ℤ := Int.fdiv yy 400
  let yoe : ℤ := yy - era * 400
  let mShift : ℤ := if 2 < m then (m : ℤ) - 3 else (m : ℤ) + 9
  let doy : ℤ := (153 * mShift + 2) / 5 + (d : ℤ) - 1
  let doe : ℤ := yoe * 365 + yoe / 4 - yoe / 100 + doy
  era * 146097 + doe - 719468

/-- The instant a `DateTime` denotes, in microseconds since the epoch. -/
def DateTime.toEpochMicro (t : DateTime) : ℤ :=
  ((((daysFromCivil t.year t.month t.day * 24 + t.hour) * 60 + t.minute
      - t.offsetMinutes) * 60 + t.second) * 1000000) + t.microsecond

/-- Chronological strict order on timestamps (Python `datetime` `<`). -/
def dtLt (a b : DateTime) : Bool := a.toEpochMicro < b.toEpochMicro

/-- Read exactly `k` ASCII digits, returning their value and the rest. -/
def readFixedNat : ℕ → ℕ → List Char → Option (ℕ × List Char)
  | 0, acc, cs => some (acc, cs)
  | k + 1, acc, c :: cs =>
    if c.isDigit then readFixedNat k (acc * 10 + (c.toNat - 48)) cs else none
  | _ + 1, _, [] => none

/-- Expect one specific character. -/
def expectChar (c : Char) : List Char → Option (List Char)
  | c2 :: cs => if c2 = c then some cs else none
  | [] => none

/-- Read 1 to 6 fractional-second digits, returning microseconds. -/
def readFraction (cs : List Char) : Option (ℕ × List Char) :=
  let digits := cs.takeWhile (·.isDigit)
  let rest := cs.dropWhile (·.isDigit)
  if digits.length = 0 || 6 < digits.length then none
  else
    let v := digits.foldl (fun acc c => acc * 10 + (c.toNat - 48)) 0
    some (v * 10 ^ (6 - digits.length), rest)

/-- Parse `±HH:MM` into signed minutes. -/
def readOffset (sign : ℤ) (cs : List Char) : Option (ℤ × List Char) := do
  let (oh, cs) ← readFixedNat 2 0 cs
  let cs ← expectChar ':' cs
  let (om, cs) ← readFixedNat 2 0 cs
  if oh < 24 && om < 60 then some (sign * (oh * 60 + om), cs) else none

/-- Parse the `[THH:MM[:SS[.ffffff]]][±HH:MM]` tail of a timestamp. -/
def readTimeTail (cs : List Char) : Option (ℕ × ℕ × ℕ × ℕ × ℤ) := do
  let (h, mi, s, us, cs) ← (do
    match cs with
    | [] => some (0, 0, 0, 0, ([] : List Char))
    | c :: cs2 =>
      if c = 'T' || c = ' ' then do
        let (h, cs3) ← readFixedNat 2 0 cs2
        let cs3 ← expectChar ':' cs3
        let (mi, cs3) ← readFixedNat 2 0 cs3
        match cs3 with
        | ':' :: cs4 => do
          let (s, cs5) ← readFixedNat 2 0 cs4
          match cs5 with
          | '.' :: cs6 => do
            let (us, cs7) ← readFraction cs6
            some (h, mi, s, us, cs7)
          | _ => some (h, mi, s, 0, cs5)
        | _ => some (h, mi, 0, 0, cs3)
      else none)
  let (off, cs) ← (do
    match cs with
    | '+' :: cs2 => readOffset 1 cs2
    | '-' :: cs2 => readOffset (-1) cs2
    | [] => some ((0 : ℤ), ([] : List Char))
    | _ => none)
  if cs = [] && h < 24 && mi < 60 && s < 60 then some (h, mi, s, us, off) else none

/-- Modelled from the spec: `datetime.fromisoformat` restricted to the
contract's timestamp shape (see the section comment).  `none` models the
`ValueError` the source catches. -/
def parseIso (str : String) : Option DateTime := do
  let cs := str.data
  let (y, cs) ← readFixedNat 4 0 cs
  let cs ← expectChar '-' cs
  let (mo, cs) ← readFixedNat 2 0 cs
  let cs ← expectChar '-' cs
  let (d, cs) ← readFixedNat 2 0 cs
  if 1 ≤ mo && mo ≤ 12 && 1 ≤ d && d ≤ daysInMonth y mo then
    let (h, mi, s, us, off) ← readTimeTail cs
    some ⟨y, mo, d, h, mi, s, us, off⟩
  else none

/-- The `Z`-suffix normalisation both callers apply before parsing:
`if s.endswith("Z"): s = s[:-1] + "+00:00"` — the last character is tested
and dropped directly on the character list. -/
def normalizeZ (s : String) : String :=
  match s.data.getLast? with
  | some c => if c = 'Z' then ⟨s.data.dropLast ++ "+00:00".data⟩ else s
  | none => s

/-- Python `min` over a non-empty list (first element wins ties). -/
def pyMinD (d : DateTime) (rest : List DateTime) : DateTime :=
  rest.foldl (fun b a => if dtLt a b then a else b) d

/-- Python `max` over a non-empty list (first element wins ties). -/
def pyMaxD (d : DateTime) (rest : List DateTime) : DateTime :=
  rest.foldl (fun b a => if dtLt b a then a else b) d

/-! ## Data model (profiling.py lines 45-94) -/

/-- `BossData` (profiling.py lines 45-51). -/
structure BossData where
  name : String
  kills : ℤ
  rank : ℤ
  ehb : ℚ := 0
deriving DecidableEq, Repr

/-- The five playstyle dimensions; models the `playstyle_scores` dict, which
after `_compute_playstyle_scores` holds exactly these five keys. -/
structure PlaystyleScores where
  skiller_vs_pvmer : ℝ
  boss_diversity : ℝ
  raid_focus : ℝ
  skill_balance : ℝ
  combat_focus : ℝ

/-- The `.get(key, default)` values `_determine_archetype` uses when a score
key is absent (`playstyle_scores` still `{}`); `combat_focus` is never read
there, its slot is filled with the neutral 50. -/
noncomputable def defaultScores : PlaystyleScores := ⟨50, 0, 0, 50, 50⟩

/-- `PlayerProfile` (profiling.py lines 59-94).  The computed fields carry the
dataclass defaults (`""`, `{}` — here `none` / `[]`). -/
structure PlayerProfile where
  username : String
  display_name : String
  player_id : ℤ
  player_type : String
  build : String
  combat_level : ℤ
  total_level : ℤ
  total_experience : ℤ
  ehp : ℚ
  ehb : ℚ
  skills : List (String × SkillData) := []
  bosses : List (String × BossData) := []
  last_updated : Option DateTime := none
  snapshot_count : ℤ := 0
  first_snapshot : Option DateTime := none
  archetype : String := ""
  archetype_description : String := ""
  playstyle_scores : Option PlaystyleScores := none
  skill_category_xp : List (String × ℤ) := []
  top_skills : List (String × ℤ) := []
  top_bosses : List (String × ℤ) := []

/-! ## The analysis pipeline (profiling.py lines 96-255) -/

/-- `_compute_skill_categories` (lines 104-113): for each category, the sum of
`skills[s].experience` over the category's skill names present in `skills`. -/
def computeSkillCategories (skills : List (String × SkillData)) : List (String × ℤ) :=
  SKILL_CATEGORIES.map (fun cat =>
    (cat.1, (cat.2.filterMap (fun s => (alookup skills s).map (·.experience))).sum))

/-- Python `list.sort(key=lambda x: x[1], reverse=True)`: a stable descending
sort by the pair's second component (ties keep original order). -/
def sortByValueDesc (l : List (String × ℤ)) : List (String × ℤ) :=
  l.mergeSort (fun a b => decide (b.2 ≤ a.2))

/-- `_compute_top_skills` (lines 115-123). -/
def computeTopSkills (skills : List (String × SkillData)) : List (String × ℤ) :=
  (sortByValueDesc ((skills.filter (fun kv => kv.1 ≠ "overall")).map
    (fun kv => (kv.1, kv.2.experience)))).take 5

/-- `_compute_top_bosses` (lines 125-133). -/
def computeTopBosses (bosses : List (String × BossData)) : List (String × ℤ) :=
  (sortByValueDesc ((bosses.filter (fun kv => 0 < kv.2.kills)).map
    (fun kv => (kv.1, kv.2.kills)))).take 5

/-- `_compute_playstyle_scores` (lines 135-190).  Arguments are the fields the
method reads: `self.ehp`, `self.ehb`, `self.bosses`, the freshly computed
`self.skill_category_xp`, and `self.total_experience`. -/
noncomputable def computePlaystyleScores (ehp ehb : ℚ) (bosses : List (String × BossData))
    (categoryXp : List (String × ℤ)) (totalExperience : ℤ) : PlaystyleScores :=
  let skillerScore : ℝ :=
    if (ehb : ℝ) > 0 then
      let r : ℝ := (ehp : ℝ) / (ehb : ℝ)
      if r > ehpEhbRatioSkiller then 100
      else if r < ehpEhbRatioPvmer then 0
      else (r - ehpEhbRatioPvmer) / (ehpEhbRatioSkiller - ehpEhbRatioPvmer) * 100
    else if (ehp : ℝ) > 0 then 100 else 50
  let bossesWithKc : ℕ := (bosses.filter (fun kv => 0 < kv.2.kills)).length
  let diversityScore : ℝ := min 100 ((bossesWithKc : ℝ) / bossDiversityHigh * 100)
  let raidKc : ℤ :=
    (((alookup BOSS_CATEGORIES "Raids").getD []).filterMap
      (fun b => (alookup bosses b).map (·.kills))).sum
  let raidScore : ℝ := min 100 ((raidKc : ℝ) / raidKcThreshold * 100)
  let balanceScore : ℝ :=
    if categoryXp ≠ [] then
      let values : List ℝ := categoryXp.map (fun kv => (kv.2 : ℝ))
      let meanXp : ℝ := values.sum / values.length
      if meanXp > 0 then
        let variance : ℝ := (values.map (fun v => (v - meanXp) ^ 2)).sum / values.length
        let cv : ℝ := Real.sqrt variance / meanXp
        max 0 (100 - cv * 100)
      else 50
    else 50
  let combatXp : ℤ := (alookup categoryXp "Combat").getD 0
  let combatFocus : ℝ :=
    if (totalExperience : ℝ) > 0 then (combatXp : ℝ) / (totalExperience : ℝ) * 100 else 50
  ⟨skillerScore, diversityScore, raidScore, balanceScore, combatFocus⟩

/-- `str.replace("_", " ")` for the single-character pattern used here. -/
def replaceUnderscores (s : String) : String :=
  ⟨s.data.map (fun c => if c = '_' then ' ' else c)⟩

/-- One step of Python `str.title()`: an alphabetic character is uppercased
after a non-alphabetic one and lowercased otherwise. -/
def titleAux : Bool → List Char → List Char
  | _, [] => []
  | prevAlpha, c :: cs =>
    (if c.isAlpha then (if prevAlpha then c.toLower else c.toUpper) else c)
      :: titleAux c.isAlpha cs

/-- Python `str.title()` (ASCII inputs). -/
def pyTitle (s : String) : String := ⟨titleAux false s.data⟩

/-- Python `max(items, key=lambda x: x[1])` on a non-empty list: the first
item with the maximal second component. -/
def pyMaxByValue (h : String × ℤ) (t : List (String × ℤ)) : String × ℤ :=
  t.foldl (fun b a => if b.2 < a.2 then a else b) h

/-- The branch structure of `_determine_archetype` (lines 202-250): the
`(archetype, archetype_description)` pair assigned before the account-type
modifier. -/
noncomputable def archetypeBase (sc : PlaystyleScores)
    (categoryXp : List (String × ℤ)) (topBosses : List (String × ℤ)) :
    String × String :=
  if sc.skiller_vs_pvmer > 80 then
      if sc.skill_balance > 70 then
        ("Balanced Skiller", "Well-rounded skill training across all categories")
      else
        match categoryXp with
        | [] => ("Skiller", "Focuses on skill training over combat")
        | c :: rest =>
          let topCat := pyMaxByValue c rest
          (topCat.1 ++ " Specialist",
           "Focused primarily on " ++ topCat.1.toLower ++ " skills")
    else if sc.skiller_vs_pvmer < 30 then
      if sc.raid_focus > 70 then
        ("Raider", "Heavy focus on raid content (CoX, ToB, ToA)")
      else if sc.boss_diversity > 70 then
        ("Boss Hunter", "Experienced across many different bosses")
      else
        match topBosses with
        | [] => ("PvMer", "Focuses on boss content and combat")
        | tb :: _ =>
          match BOSS_CATEGORIES.find? (fun cat => cat.2.contains tb.1) with
          | some cat =>
            (cat.1 ++ " Specialist", "Primary focus on " ++ cat.1.toLower ++ " content")
          | none => ("PvMer", "Focuses on boss content and combat")
    else
      if sc.raid_focus > 50 ∧ sc.skill_balance > 50 then
        ("Completionist", "Balanced progression across skilling and PvM")
      else if sc.raid_focus > 50 then
        ("Raiding Hybrid", "Mixes raid content with skill training")
      else
        ("All-Rounder", "Enjoys varied content without strong specialization")

/-- `_determine_archetype` (lines 192-255): the branch structure above
followed by the account-type modifier `if self.player_type and
self.player_type != "regular"` (an empty string is falsy).  The score dict
is read through the `.get` defaults of `defaultScores`. -/
noncomputable def determineArchetype (scores : Option PlaystyleScores)
    (categoryXp : List (String × ℤ)) (topBosses : List (String × ℤ))
    (playerType : String) : String × String :=
  let base := archetypeBase (scores.getD defaultScores) categoryXp topBosses
  if playerType ≠ "" ∧ playerType ≠ "regular" then
    (pyTitle (replaceUnderscores playerType) ++ " " ++ base.1, base.2)
  else base

/-- `PlayerProfile.analyze` (lines 96-102): runs the five computation steps in
order and stores their results; all other fields are left unchanged. -/
noncomputable def analyze (p : PlayerProfile) : PlayerProfile :=
  let categoryXp := computeSkillCategories p.skills
  let tops := computeTopSkills p.skills
  let topb := computeTopBosses p.bosses
  let scores := computePlaystyleScores p.ehp p.ehb p.bosses categoryXp p.total_experience
  let arch := determineArchetype (some scores) categoryXp topb p.player_type
  { p with
    skill_category_xp := categoryXp
    top_skills := tops
    top_bosses := topb
    playstyle_scores := some scores
    archetype := arch.1
    archetype_description := arch.2 }

/-! ## Raw provider payloads (§6 input contract)

JSON mappings are modelled structurally: known fields are `Option`s (absent =
`none`), nested dicts default to their empty shape via `getD`. -/

/-- One entry of `latestSnapshot.data.skills`. -/
structure SkillEntry where
  level : Option ℤ := none
  experience : Option ℤ := none
  rank : Option ℤ := none
  ehp : Option ℚ := none
deriving DecidableEq, Repr

/-- One entry of `latestSnapshot.data.bosses`. -/
structure BossEntry where
  kills : Option ℤ := none
  rank : Option ℤ := none
  ehb : Option ℚ := none
deriving DecidableEq, Repr

/-- `computed.ehp` / `computed.ehb`: `{"value": float}`. -/
structure MetricValue where
  value : Option ℚ := none
deriving DecidableEq, Repr

/-- The `computed` section of a snapshot's data. -/
structure ComputedSection where
  ehp : Option MetricValue := none
  ehb : Option MetricValue := none
deriving DecidableEq, Repr

/-- The `data` mapping of a snapshot (`skills`, `bosses`, `computed`). -/
structure SnapshotData where
  skills : List (String × SkillEntry) := []
  bosses : List (String × BossEntry) := []
  computed : Option ComputedSection := none
deriving DecidableEq, Repr

/-- The `latestSnapshot` field of a player payload. -/
structure LatestSnapshot where
  data : Option SnapshotData := none
deriving DecidableEq, Repr

/-- The `/players/(username)` payload fields `build_player_profile` reads. -/
structure PlayerPayload where
  username : Option String := none
  displayName : Option String := none
  id : Option ℤ := none
  type : Option String := none
  build : Option String := none
  combatLevel : Option ℤ := none
  updatedAt : Option String := none
  lastChangedAt : Option String := none
  latestSnapshot : Option LatestSnapshot := none
deriving DecidableEq, Repr

/-- One historical snapshot payload. -/
structure SnapshotPayload where
  createdAt : Option String := none
  data : Option SnapshotData := none
deriving DecidableEq, Repr

/-- Python `a or b` on optional strings (`""` and `None` are falsy). -/
def pyOrStr (a b : Option String) : Option String :=
  match a with
  | some s => if s = "" then b else some s
  | none => b

/-! ## build_player_profile (profiling.py lines 258-366) -/

/-- The date-collection loop of `build_player_profile` (lines 331-338).  The
single `try` wraps the whole loop, so the first unparsable (present,
non-empty) `createdAt` raises and abandons every date collected so far
(`none`); missing or empty `createdAt` values are skipped individually. -/
def collectDates : List SnapshotPayload → List DateTime → Option (List DateTime)
  | [], acc => some acc
  | snap :: rest, acc =>
    match snap.createdAt with
    | none => collectDates rest acc
    | some s =>
      if s = "" then collectDates rest acc
      else
        match parseIso (normalizeZ s) with
        | some d => collectDates rest (acc ++ [d])
        | none => none

/-- `build_player_profile` (lines 258-366).  The `snapshots` argument models
the Python default `None` via `Option`; `if snapshots:` is `some l` with
`l ≠ []`.  Note the function runs `profile.analyze()` before returning. -/
noncomputable def buildPlayerProfile (pd : PlayerPayload)
    (snapshots : Option (List SnapshotPayload)) : PlayerProfile :=
  let username := pd.username.getD "Unknown"
  let displayName := pd.displayName.getD username
  let playerId := pd.id.getD 0
  let playerType := pd.type.getD "regular"
  let buildTag := pd.build.getD "main"
  let latestData : Option SnapshotData := pd.latestSnapshot.bind (·.data)
  let skillsData := (latestData.map (·.skills)).getD []
  let skills := SKILLS.filterMap (fun nm =>
    (alookup skillsData nm).map (fun s =>
      (nm, ({ name := nm, level := s.level.getD 1, experience := s.experience.getD 0,
              rank := s.rank.getD (-1), ehp := s.ehp.getD 0 } : SkillData))))
  let bossesData := (latestData.map (·.bosses)).getD []
  let bosses := bossesData.filterMap (fun kv =>
    let kills := kv.2.kills.getD 0
    if 0 ≤ kills then
      some (kv.1, ({ name := kv.1, kills := kills, rank := kv.2.rank.getD (-1),
                     ehb := kv.2.ehb.getD 0 } : BossData))
    else none)
  let computed := latestData.bind (·.computed)
  let ehp := ((computed.bind (·.ehp)).bind (·.value)).getD 0
  let ehb := ((computed.bind (·.ehb)).bind (·.value)).getD 0
  let overallSkill := (alookup skills "overall").getD
    { name := "overall", level := 1, experience := 0, rank := -1 }
  let combatLevel := pd.combatLevel.getD 3
  let lastUpdated : Option DateTime :=
    match pyOrStr pd.updatedAt pd.lastChangedAt with
    | some s => if s = "" then none else parseIso (normalizeZ s)
    | none => none
  let snapCount : ℤ :=
    match snapshots with
    | some l => if l ≠ [] then (l.length : ℤ) else 0
    | none => 0
  let firstSnapshot : Option DateTime :=
    match snapshots with
    | some l =>
      if l ≠ [] then
        match collectDates l [] with
        | some (d :: ds) => some (pyMinD d ds)
        | some [] => none
        | none => none
      else none
    | none => none
  analyze
    { username := username
      display_name := displayName
      player_id := playerId
      player_type := playerType
      build := buildTag
      combat_level := combatLevel
      total_level := overallSkill.level
      total_experience := overallSkill.experience
      ehp := ehp
      ehb := ehb
      skills := skills
      bosses := bosses
      last_updated := lastUpdated
      snapshot_count := snapCount
      first_snapshot := firstSnapshot }

/-! ## compute_journey_data (profiling.py lines 369-456) -/

/-- One timeline entry (`{date, total_level, total_xp, ehp, ehb}`). -/
structure JourneyPoint where
  date : DateTime
  total_level : ℤ
  total_xp : ℤ
  ehp : ℚ
  ehb : ℚ
deriving DecidableEq, Repr

/-- One detected milestone (`{date, type, value, description}`). -/
structure Milestone where
  date : DateTime
  type : String
  value : ℤ
  description : String
deriving DecidableEq, Repr

/-- The mapping `compute_journey_data` returns. -/
structure JourneyResult where
  timeline : List JourneyPoint
  milestones : List Milestone
  data_coverage : String
  snapshot_count : ℤ
deriving DecidableEq, Repr

/-- Lexicographic code-point comparison of character lists. -/
def charListLe : List Char → List Char → Bool
  | [], _ => true
  | _ :: _, [] => false
  | c :: cs, d :: ds => if c = d then charListLe cs ds else decide (c < d)

/-- Python string `<=`: lexicographic by code point. -/
def pyStrLe (a b : String) : Bool := charListLe a.data b.data

/-- The per-snapshot body of the timeline loop (lines 388-412): skip when
`createdAt` is missing or empty, skip (`continue`) when it fails to parse,
otherwise extract the overall level/xp and computed EHP/EHB with 0 defaults. -/
def toJourneyPoint (snap : SnapshotPayload) : Option JourneyPoint :=
  match snap.createdAt with
  | none => none
  | some c =>
    if c = "" then none
    else
      match parseIso (normalizeZ c) with
      | none => none
      | some date =>
        let data := snap.data.getD {}
        let overall := (alookup data.skills "overall").getD {}
        some
          { date := date
            total_level := overall.level.getD 0
            total_xp := overall.experience.getD 0
            ehp := ((data.computed.bind (·.ehp)).bind (·.value)).getD 0
            ehb := ((data.computed.bind (·.ehb)).bind (·.value)).getD 0 }

/-- `level_thresholds` (line 416). -/
def levelThresholds : List ℤ := [500, 750, 1000, 1250, 1500, 1750, 2000, 2277]

/-- The milestone scan (lines 414-430): for each consecutive timeline pair
`(timeline[i-1], timeline[i])` and each threshold crossed between them, one
milestone dated at `timeline[i]`. -/
def detectMilestones (timeline : List JourneyPoint) : List Milestone :=
  if 2 ≤ timeline.length then
    ((timeline.zip timeline.tail).map (fun pc =>
      levelThresholds.filterMap (fun th =>
        if pc.1.total_level < th ∧ th ≤ pc.2.total_level then
          some
            { date := pc.2.date
              type := "total_level"
              value := th
              description := "Reached " ++ toString th ++ " total level" }
        else none))).flatten
  else []

/-- `f"(years):.1f"` for `years = days / 365`: decimal rounding to one place
(half away from zero; the binary-double tie behaviour of CPython's
formatting is not modelled, ties at the half digit cannot arise from the
integer day counts that reach this branch in practice). -/
def formatYears (days : ℤ) : String :=
  let t := Int.fdiv (days * 20 + 365) 730
  toString (Int.fdiv t 10) ++ "." ++ toString (Int.emod t 10)

/-- The data-coverage description (lines 432-449). -/
def dataCoverage (timeline : List JourneyPoint) : String :=
  match timeline with
  | [] => "No historical data available"
  | t :: ts =>
    let firstDate := pyMinD t.date (ts.map (·.date))
    let lastDate := pyMaxD t.date (ts.map (·.date))
    let daysCovered : ℤ :=
      Int.fdiv (lastDate.toEpochMicro - firstDate.toEpochMicro) 86400000000
    let n := (t :: ts).length
    if daysCovered < 7 then
      toString n ++ " snapshots over " ++ toString daysCovered ++ " days (limited history)"
    else if daysCovered < 30 then
      toString n ++ " snapshots over " ++ toString daysCovered ++ " days"
    else if daysCovered < 365 then
      toString n ++ " snapshots over ~" ++ toString (Int.fdiv daysCovered 30) ++ " months"
    else
      toString n ++ " snapshots over ~" ++ formatYears daysCovered ++ " years"

/-- `compute_journey_data` (lines 369-456). -/
def computeJourneyData (snapshots : List SnapshotPayload) : JourneyResult :=
  if snapshots = [] then
    { timeline := []
      milestones := []
      data_coverage := "No historical data available"
      snapshot_count := 0 }
  else
    let sorted := snapshots.mergeSort
      (fun a b => pyStrLe (a.createdAt.getD "") (b.createdAt.getD ""))
    let timeline := sorted.filterMap toJourneyPoint
    { timeline := timeline
      milestones := detectMilestones timeline
      data_coverage := dataCoverage timeline
      snapshot_count := (timeline.length : ℤ) }

/-! ## Spec-side definitions

Each definition below is written from the specification's words, to be
compared with the corresponding definition taken from the source. -/

/-- Spec §4.1: virtual level for experience at or above the level-99
threshold is `L - 1` for the smallest `L` in `[99, 126]` whose cumulative
requirement `experience(L)` exceeds the experience, capped at 126.
`List.range' 99 28` is ascending, so `find?` returns the smallest such
level. -/
def specVirtualLevel (level experience : ℤ) : ℤ :=
  if experience < 13034431 then level
  else
    match (List.range' 99 28).find? (fun L => (xpForLevel L : ℤ) > experience) with
    | some L => (L : ℤ) - 1
    | none => 126

/-- Spec §4.2, archetype decision tree (labels), evaluated in the spec's
exact order; ties and boundary values resolve to the branch listed first.
The dominant category is the one with the highest XP total (first listed
wins ties, per the same determinism clause). -/
noncomputable def specArchetypeBase (sc : PlaystyleScores)
    (categoryXp topBosses : List (String × ℤ)) : String :=
  if sc.skiller_vs_pvmer > 80 then
    if sc.skill_balance > 70 then "Balanced Skiller"
    else
      match categoryXp with
      | [] => "Skiller"
      | c :: rest => (pyMaxByValue c rest).1 ++ " Specialist"
  else if sc.skiller_vs_pvmer < 30 then
    if sc.raid_focus > 70 then "Raider"
    else if sc.boss_diversity > 70 then "Boss Hunter"
    else
      match topBosses with
      | [] => "PvMer"
      | tb :: _ =>
        match BOSS_CATEGORIES.find? (fun cat => cat.2.contains tb.1) with
        | some cat => cat.1 ++ " Specialist"
        | none => "PvMer"
  else if sc.raid_focus > 50 ∧ sc.skill_balance > 50 then "Completionist"
  else if sc.raid_focus > 50 then "Raiding Hybrid"
  else "All-Rounder"

/-- Spec §4.2: the humanized account-type name (underscores to spaces,
title case). -/
def specHumanize (t : String) : String := pyTitle (replaceUnderscores t)

/-- Spec §4.2: if the account-type is not the string "regular", the archetype
is prefixed with the humanized account-type (space-separated, as in the
spec's example "Ironman Raider").
Prepending an empty humanized name (which arises only from the empty
account-type string) leaves the label unchanged. -/
noncomputable def specArchetype (sc : PlaystyleScores)
    (categoryXp topBosses : List (String × ℤ)) (accountType : String) : String :=
  let base := specArchetypeBase sc categoryXp topBosses
  if accountType ≠ "regular" then
    let nm := specHumanize accountType
    if nm = "" then base else nm ++ " " ++ base
  else base

/-- Spec §4.1: "first-snapshot timestamp = earliest successfully parsed
createdAt among supplied snapshots", each snapshot parsed independently. -/
def specFirstSnapshot (snaps : List SnapshotPayload) : Option DateTime :=
  match snaps.filterMap (fun s => s.createdAt.bind (fun c => parseIso (normalizeZ c))) with
  | [] => none
  | d :: ds => some (pyMinD d ds)

/-- Spec §4.3 milestone rule: scan consecutive timeline pairs; for each pair
and each threshold with `prev < threshold ≤ curr`, one milestone dated at the
later point. -/
def specMilestones (timeline : List JourneyPoint) : List Milestone :=
  ((timeline.zip timeline.tail).map (fun pc =>
    levelThresholds.filterMap (fun th =>
      if pc.1.total_level < th ∧ th ≤ pc.2.total_level then
        some
          { date := pc.2.date
            type := "total_level"
            value := th
            description := "Reached " ++ toString th ++ " total level" }
      else none))).flatten

/-! ## Concrete instances used by counterexamples, witnesses and scenarios -/

/-- A profile whose Combat-category XP (1000) exceeds its recorded
`total_experience` (10): every raw value is non-negative, yet
`combat_focus` is not clamped. -/
def cexProfileC1 : PlayerProfile :=
  { username := "cex"
    display_name := "cex"
    player_id := 0
    player_type := "regular"
    build := "main"
    combat_level := 3
    total_level := 1
    total_experience := 10
    ehp := 0
    ehb := 0
    skills := [("attack", { name := "attack", level := 1, experience := 1000, rank := 1 })]
    bosses := [] }

/-- An all-zero profile (hypotheses of the bounds theorem hold trivially). -/
def zeroProfile : PlayerProfile :=
  { username := "zero"
    display_name := "zero"
    player_id := 0
    player_type := "regular"
    build := "main"
    combat_level := 3
    total_level := 1
    total_experience := 0
    ehp := 0
    ehb := 0
    skills := []
    bosses := [] }

/-- A profile with tied top-skill values (for the top-5 stability witness). -/
def tieProfile : PlayerProfile :=
  { username := "tie"
    display_name := "tie"
    player_id := 0
    player_type := "regular"
    build := "main"
    combat_level := 3
    total_level := 1
    total_experience := 350
    ehp := 0
    ehb := 0
    skills :=
      [("attack", { name := "attack", level := 1, experience := 100, rank := 1 }),
       ("defence", { name := "defence", level := 1, experience := 100, rank := 2 }),
       ("magic", { name := "magic", level := 1, experience := 50, rank := 3 })]
    bosses :=
      [("zulrah", { name := "zulrah", kills := 7, rank := 1 }),
       ("kraken", { name := "kraken", kills := 7, rank := 2 }),
       ("vorkath", { name := "vorkath", kills := 0, rank := 3 })] }

/-- A snapshot with a parsable timestamp (for the first-snapshot claims). -/
def goodSnap : SnapshotPayload := { createdAt := some "2024-01-02T00:00:00Z" }

/-- A snapshot with a present but unparsable timestamp. -/
def badSnap : SnapshotPayload := { createdAt := some "not-a-date" }

/-- A later parsable snapshot. -/
def goodSnap2 : SnapshotPayload := { createdAt := some "2024-03-04T05:06:07Z" }

/-- Scenario snapshot (total level 480). -/
def journeySnap1 : SnapshotPayload :=
  { createdAt := some "2024-01-01T00:00:00Z"
    data := some { skills := [("overall", { level := some 480, experience := some 100 })] } }

/-- Scenario snapshot (total level 520). -/
def journeySnap2 : SnapshotPayload :=
  { createdAt := some "2024-01-02T00:00:00Z"
    data := some { skills := [("overall", { level := some 520, experience := some 200 })] } }

/-- Scenario snapshot (total level 760). -/
def journeySnap3 : SnapshotPayload :=
  { createdAt := some "2024-01-03T00:00:00Z"
    data := some { skills := [("overall", { level := some 760, experience := some 300 })] } }

/-! ## General lemmas -/

/-- A successful association-list lookup comes from a member of the list. -/
theorem alookup_some_mem {α : Type} {l : List (String × α)} {k : String} {v : α}
    (h : alookup l k = some v) : ∃ kv ∈ l, kv.2 = v := by
  simp only [alookup, Option.map_eq_some'] at h
  obtain ⟨kv, hfind, hv⟩ := h
  exact ⟨kv, List.mem_of_find?_eq_some hfind, hv⟩

/-- Lookup with default 0 in a list of non-negative values is non-negative. -/
theorem alookup_getD_nonneg (catXp : List (String × ℤ))
    (hcat : ∀ kv ∈ catXp, 0 ≤ kv.2) (k : String) :
    0 ≤ (alookup catXp k).getD 0 := by
  cases h : alookup catXp k with
  | none => simp
  | some v =>
    obtain ⟨kv, hmem, hv⟩ := alookup_some_mem h
    simpa [hv] using hcat kv hmem

/-- Category XP totals are non-negative when all skill experiences are. -/
theorem mem_category_xp_nonneg (skills : List (String × SkillData))
    (hxp : ∀ kv ∈ skills, 0 ≤ kv.2.experience) :
    ∀ kv ∈ computeSkillCategories skills, 0 ≤ kv.2 := by
  intro kv hkv
  simp only [computeSkillCategories, List.mem_map] at hkv
  obtain ⟨cat, hcat, rfl⟩ := hkv
  apply List.sum_nonneg
  intro x hx
  simp only [List.mem_filterMap, Option.map_eq_some'] at hx
  obtain ⟨nm, hnm, sd, hsd, rfl⟩ := hx
  obtain ⟨kv2, hmem, hv⟩ := alookup_some_mem hsd
  have := hxp kv2 hmem
  rw [hv] at this
  exact this

/-- The skill-balance formula value lies in [0, 100] for positive mean. -/
theorem balance_bounds (v m : ℝ) (hm : 0 < m) :
    0 ≤ max 0 (100 - Real.sqrt v / m * 100) ∧
      max 0 (100 - Real.sqrt v / m * 100) ≤ 100 := by
  refine ⟨le_max_left _ _, max_le (by norm_num) ?_⟩
  have h := div_nonneg (Real.sqrt_nonneg v) hm.le
  nlinarith

/-- All five playstyle scores lie in [0, 100] provided kill counts and
category XP totals are non-negative and the Combat XP total does not exceed
the recorded total experience. -/
theorem scores_bounded (ehp ehb : ℚ) (bosses : List (String × BossData))
    (catXp : List (String × ℤ)) (total : ℤ)
    (hcat : ∀ kv ∈ catXp, 0 ≤ kv.2)
    (hk : ∀ kv ∈ bosses, 0 ≤ kv.2.kills)
    (hcombat : (alookup catXp "Combat").getD 0 ≤ total) :
    (0 ≤ (computePlaystyleScores ehp ehb bosses catXp total).skiller_vs_pvmer ∧
      (computePlaystyleScores ehp ehb bosses catXp total).skiller_vs_pvmer ≤ 100) ∧
    (0 ≤ (computePlaystyleScores ehp ehb bosses catXp total).boss_diversity ∧
      (computePlaystyleScores ehp ehb bosses catXp total).boss_diversity ≤ 100) ∧
    (0 ≤ (computePlaystyleScores ehp ehb bosses catXp total).raid_focus ∧
      (computePlaystyleScores ehp ehb bosses catXp total).raid_focus ≤ 100) ∧
    (0 ≤ (computePlaystyleScores ehp ehb bosses catXp total).skill_balance ∧
      (computePlaystyleScores ehp ehb bosses catXp total).skill_balance ≤ 100) ∧
    (0 ≤ (computePlaystyleScores ehp ehb bosses catXp total).combat_focus ∧
      (computePlaystyleScores ehp ehb bosses catXp total).combat_focus ≤ 100) := by
  have hraid : (0 : ℤ) ≤
      (((alookup BOSS_CATEGORIES "Raids").getD []).filterMap
        (fun b => (alookup bosses b).map (·.kills))).sum := by
    apply List.sum_nonneg
    intro x hx
    simp only [List.mem_filterMap, Option.map_eq_some'] at hx
    obtain ⟨nm, hnm, bd, hbd, rfl⟩ := hx
    obtain ⟨kv, hmem, hv⟩ := alookup_some_mem hbd
    have := hk kv hmem
    rw [hv] at this
    exact this
  have hcombat0 : (0 : ℤ) ≤ (alookup catXp "Combat").getD 0 :=
    alookup_getD_nonneg catXp hcat "Combat"
  simp only [computePlaystyleScores, ehpEhbRatioSkiller, ehpEhbRatioPvmer,
    bossDiversityHigh, raidKcThreshold]
  refine ⟨?_, ?_, ?_, ?_, ?_⟩
  · split_ifs with h1 h2 h3 h4 <;> try norm_num
    have h2le : (ehp : ℝ) / (ehb : ℝ) ≤ 3 := not_lt.mp h2
    have h3ge : (1 / 2 : ℝ) ≤ (ehp : ℝ) / (ehb : ℝ) := not_lt.mp h3
    constructor
    · exact div_nonneg (by linarith) (by norm_num)
    · rw [div_le_one (by norm_num)]
      linarith
  · constructor
    · exact le_min (by norm_num) (by positivity)
    · exact min_le_left _ _
  · have hraidR : (0 : ℝ) ≤
        (((((alookup BOSS_CATEGORIES "Raids").getD []).filterMap
          (fun b => (alookup bosses b).map (·.kills))).sum : ℤ) : ℝ) :=
      Int.cast_nonneg.mpr hraid
    constructor
    · exact le_min (by norm_num) (mul_nonneg (div_nonneg hraidR (by norm_num)) (by norm_num))
    · exact min_le_left _ _
  · split_ifs with hcx hmean
    · exact balance_bounds _ _ hmean
    · norm_num
    · norm_num
  · have hC : (0 : ℝ) ≤ (((alookup catXp "Combat").getD 0 : ℤ) : ℝ) := by
      exact_mod_cast hcombat0
    have hct : (((alookup catXp "Combat").getD 0 : ℤ) : ℝ) ≤ (total : ℝ) := by
      exact_mod_cast hcombat
    split_ifs with htot
    · constructor
      · exact mul_nonneg (div_nonneg hC htot.le) (by norm_num)
      · have hdiv : (((alookup catXp "Combat").getD 0 : ℤ) : ℝ) / (total : ℝ) ≤ 1 :=
          (div_le_one htot).mpr hct
        nlinarith
    · norm_num

/-- A non-empty account-type string humanizes to a non-empty name. -/
theorem specHumanize_ne_empty (t : String) (h : t ≠ "") : specHumanize t ≠ "" := by
  obtain ⟨l⟩ := t
  cases l with
  | nil => exact absurd rfl h
  | cons c cs =>
    simp only [specHumanize, pyTitle, replaceUnderscores, List.map, titleAux]
    intro hcontra
    exact List.cons_ne_nil _ _ (congrArg String.data hcontra)

/-- The label component of the source's archetype branch structure equals the
spec's decision tree. -/
theorem archetypeBase_fst (sc : PlaystyleScores) (cx tbx : List (String × ℤ)) :
    (archetypeBase sc cx tbx).1 = specArchetypeBase sc cx tbx := by
  unfold archetypeBase specArchetypeBase
  split_ifs <;> first
    | rfl
    | (cases cx <;> rfl)
    | (cases tbx with
       | nil => rfl
       | cons tb rest =>
         dsimp only
         cases List.find? (fun cat => cat.2.contains tb.1) BOSS_CATEGORIES <;> rfl)

/-- `_determine_archetype`'s label equals the spec's tree with the
account-type modifier. -/
theorem determineArchetype_fst (sc : PlaystyleScores) (cx tbx : List (String × ℤ))
    (t : String) :
    (determineArchetype (some sc) cx tbx t).1 = specArchetype sc cx tbx t := by
  unfold determineArchetype specArchetype
  by_cases h1 : t = "regular"
  · subst h1
    simp [archetypeBase_fst]
  · by_cases h2 : t = ""
    · subst h2
      simp [archetypeBase_fst, specHumanize, pyTitle, replaceUnderscores, titleAux]
    · rw [if_pos ⟨h2, h1⟩, if_pos h1, if_neg (specHumanize_ne_empty t h2)]
      simp [archetypeBase_fst, specHumanize]

/-- When every present, non-empty `createdAt` parses, the date-collection
loop of `build_player_profile` returns all parsed dates in order. -/
theorem collectDates_all_parse (snaps : List SnapshotPayload)
    (hall : ∀ s ∈ snaps, ∀ c, s.createdAt = some c → c ≠ "" →
      (parseIso (normalizeZ c)).isSome) (acc : List DateTime) :
    collectDates snaps acc =
      some (acc ++ snaps.filterMap (fun s => s.createdAt.bind
        (fun c => parseIso (normalizeZ c)))) := by
  induction snaps generalizing acc with
  | nil => simp [collectDates]
  | cons s rest ih =>
    have hrest : ∀ s2 ∈ rest, ∀ c, s2.createdAt = some c → c ≠ "" →
        (parseIso (normalizeZ c)).isSome :=
      fun s2 h2 => hall s2 (List.mem_cons_of_mem s h2)
    cases hc : s.createdAt with
    | none => simp [collectDates, hc, ih hrest]
    | some c =>
      by_cases hce : c = ""
      · subst hce
        have hnone : parseIso (normalizeZ "") = none := by decide
        simp [collectDates, hc, hnone, ih hrest]
      · obtain ⟨d, hd⟩ := Option.isSome_iff_exists.mp (hall s (List.mem_cons_self s rest) c hc hce)
        simp [collectDates, hc, hce, hd, ih hrest]

/-- One present, non-empty, unparsable `createdAt` anywhere in the list makes
the date-collection loop abort with nothing. -/
theorem collectDates_fail (snaps : List SnapshotPayload)
    (hfail : ∃ s ∈ snaps, ∃ c, s.createdAt = some c ∧ c ≠ "" ∧
      parseIso (normalizeZ c) = none) (acc : List DateTime) :
    collectDates snaps acc = none := by
  induction snaps generalizing acc with
  | nil => simp at hfail
  | cons s rest ih =>
    obtain ⟨s2, hmem, c2, hc2, hne2, hp2⟩ := hfail
    rcases List.mem_cons.mp hmem with heq | hmem2
    · subst heq
      simp [collectDates, hc2, hne2, hp2]
    · have hfail2 : ∃ s3 ∈ rest, ∃ c, s3.createdAt = some c ∧ c ≠ "" ∧
          parseIso (normalizeZ c) = none := ⟨s2, hmem2, c2, hc2, hne2, hp2⟩
      cases hc : s.createdAt with
      | none => simp [collectDates, hc, ih hfail2]
      | some c =>
        by_cases hce : c = ""
        · subst hce
          simp [collectDates, hc, ih hfail2]
        · cases hp : parseIso (normalizeZ c) with
          | none => simp [collectDates, hc, hce, hp]
          | some d => simp [collectDates, hc, hce, hp, ih hfail2]

/-! ## Claims -/

/-- C1 counterexample: `cexProfileC1` has non-negative ehp, ehb, skill
experiences, total experience (and kill counts), yet after `analyze()` its
`combat_focus` score is 10000, far outside [0, 100]: the code does not clamp
`combat_focus`, and the recorded `total_experience` (10) is smaller than the
Combat-category XP (1000). -/
theorem c1_counterexample :
    (0 ≤ cexProfileC1.ehp ∧ 0 ≤ cexProfileC1.ehb ∧
      (∀ kv ∈ cexProfileC1.skills, 0 ≤ kv.2.experience) ∧
      0 ≤ cexProfileC1.total_experience ∧
      (∀ kv ∈ cexProfileC1.bosses, 0 ≤ kv.2.kills)) ∧
    ((analyze cexProfileC1).playstyle_scores.getD defaultScores).combat_focus = 10000 ∧
    ¬ ((analyze cexProfileC1).playstyle_scores.getD defaultScores).combat_focus ≤ 100 := by
  have hcombatXp :
      (alookup (computeSkillCategories cexProfileC1.skills) "Combat").getD 0 = 1000 := by
    decide
  have heval : ((analyze cexProfileC1).playstyle_scores.getD defaultScores).combat_focus
      = 10000 := by
    show (computePlaystyleScores cexProfileC1.ehp cexProfileC1.ehb cexProfileC1.bosses
      (computeSkillCategories cexProfileC1.skills) cexProfileC1.total_experience).combat_focus
      = 10000
    simp only [computePlaystyleScores, hcombatXp]
    norm_num [cexProfileC1]
  refine ⟨⟨by norm_num [cexProfileC1], by norm_num [cexProfileC1], by decide, by decide,
    by decide⟩, heval, by rw [heval]; norm_num⟩

/-- C1 (amended): for every profile with non-negative ehp, ehb, skill
experience values and total experience (including all-zero), non-negative
boss kill counts (the data-model invariant of §3), and Combat-category XP
not exceeding the recorded total experience (true whenever the overall
experience is consistent with the per-skill values), each of the five
playstyle dimension scores after `analyze()` lies in [0, 100].  The last
condition is necessary: `combat_focus` is not clamped (see the
counterexample). -/
theorem c1_scores_bounded_amended (p : PlayerProfile)
    (hehp : 0 ≤ p.ehp) (hehb : 0 ≤ p.ehb)
    (hxp : ∀ kv ∈ p.skills, 0 ≤ kv.2.experience)
    (htot : 0 ≤ p.total_experience)
    (hkills : ∀ kv ∈ p.bosses, 0 ≤ kv.2.kills)
    (hcombat : (alookup (computeSkillCategories p.skills) "Combat").getD 0
      ≤ p.total_experience) :
    (0 ≤ ((analyze p).playstyle_scores.getD defaultScores).skiller_vs_pvmer ∧
      ((analyze p).playstyle_scores.getD defaultScores).skiller_vs_pvmer ≤ 100) ∧
    (0 ≤ ((analyze p).playstyle_scores.getD defaultScores).boss_diversity ∧
      ((analyze p).playstyle_scores.getD defaultScores).boss_diversity ≤ 100) ∧
    (0 ≤ ((analyze p).playstyle_scores.getD defaultScores).raid_focus ∧
      ((analyze p).playstyle_scores.getD defaultScores).raid_focus ≤ 100) ∧
    (0 ≤ ((analyze p).playstyle_scores.getD defaultScores).skill_balance ∧
      ((analyze p).playstyle_scores.getD defaultScores).skill_balance ≤ 100) ∧
    (0 ≤ ((analyze p).playstyle_scores.getD defaultScores).combat_focus ∧
      ((analyze p).playstyle_scores.getD defaultScores).combat_focus ≤ 100) :=
  scores_bounded p.ehp p.ehb p.bosses (computeSkillCategories p.skills) p.total_experience
    (mem_category_xp_nonneg p.skills hxp) hkills hcombat

/-- C1 witness: the bounds theorem applied to the all-zero profile. -/
theorem c1_scores_bounded_witness :
    (0 ≤ ((analyze zeroProfile).playstyle_scores.getD defaultScores).skiller_vs_pvmer ∧
      ((analyze zeroProfile).playstyle_scores.getD defaultScores).skiller_vs_pvmer ≤ 100) ∧
    (0 ≤ ((analyze zeroProfile).playstyle_scores.getD defaultScores).boss_diversity ∧
      ((analyze zeroProfile).playstyle_scores.getD defaultScores).boss_diversity ≤ 100) ∧
    (0 ≤ ((analyze zeroProfile).playstyle_scores.getD defaultScores).raid_focus ∧
      ((analyze zeroProfile).playstyle_scores.getD defaultScores).raid_focus ≤ 100) ∧
    (0 ≤ ((analyze zeroProfile).playstyle_scores.getD defaultScores).skill_balance ∧
      ((analyze zeroProfile).playstyle_scores.getD defaultScores).skill_balance ≤ 100) ∧
    (0 ≤ ((analyze zeroProfile).playstyle_scores.getD defaultScores).combat_focus ∧
      ((analyze zeroProfile).playstyle_scores.getD defaultScores).combat_focus ≤ 100) :=
  c1_scores_bounded_amended zeroProfile (by decide) (by decide) (by decide) (by decide)
    (by decide) (by decide)

/-- C2 counterexample: `build_player_profile` on the empty payload with no
snapshots returns a profile whose computed fields are already populated — the
archetype is "All-Rounder" rather than the dataclass default `""`, and the
playstyle-score mapping is non-empty — so the profile is not in a
not-yet-analyzed state. -/
theorem c2_counterexample :
    (buildPlayerProfile {} none).archetype = "All-Rounder" ∧
    (buildPlayerProfile {} none).playstyle_scores ≠ none := by
  constructor
  · simp [buildPlayerProfile, analyze, determineArchetype, archetypeBase,
      computePlaystyleScores, computeSkillCategories, computeTopBosses, SKILLS,
      SKILL_CATEGORIES, alookup, BOSS_CATEGORIES, bossDiversityHigh, raidKcThreshold]
    norm_num
  · simp [buildPlayerProfile, analyze]

/-- C2 (amended): `build_player_profile` invokes `analyze()` before
returning (line 364), so the profile it returns is already fully analyzed:
re-running `analyze()` on it is the identity, and the caller may read the
computed fields directly. -/
theorem c2_build_returns_analyzed (pd : PlayerPayload)
    (snapshots : Option (List SnapshotPayload)) :
    analyze (buildPlayerProfile pd snapshots) = buildPlayerProfile pd snapshots := rfl

/-- C3: for every analyzed profile the archetype label is exactly the spec's
deterministic decision tree (with ties and boundary values resolving to the
first-listed branch) applied to the computed scores, category XP totals, top
bosses and account type, including the humanized account-type modifier. -/
theorem c3_archetype_tree (p : PlayerProfile) :
    (analyze p).archetype =
      specArchetype ((analyze p).playstyle_scores.getD defaultScores)
        (analyze p).skill_category_xp (analyze p).top_bosses p.player_type :=
  determineArchetype_fst _ _ _ _

set_option maxRecDepth 10000 in
/-- C4: `virtual_level` equals the spec's derivation — the nominal level
below the 13,034,431 threshold, otherwise `L - 1` for the smallest
`L ∈ [99, 126]` whose formula value exceeds the experience, capped at 126 —
and the closed-form formula reproduces the reference experience table
exactly for levels 1 through 99. -/
theorem c4_virtual_level (s : SkillData) :
    s.virtual_level = specVirtualLevel s.level s.experience ∧
    xpTable = (List.range 99).map xpForLevel :=
  ⟨rfl, by decide⟩

/-- C5: the skiller-vs-pvmer score is 100 when EHB is zero and EHP positive,
50 when both are zero, and for positive EHB is determined by the EHP/EHB
ratio: 100 at or above the 3.0 cutoff, 0 at or below the 0.5 cutoff, and the
linear interpolation strictly between them (the boundary ratios 3.0 and 0.5
fall under the first two cases). -/
theorem c5_skiller_score (ehp ehb : ℚ) (bosses : List (String × BossData))
    (catXp : List (String × ℤ)) (total : ℤ) :
    ((ehb = 0 → 0 < ehp →
        (computePlaystyleScores ehp ehb bosses catXp total).skiller_vs_pvmer = 100) ∧
     (ehb = 0 → ehp = 0 →
        (computePlaystyleScores ehp ehb bosses catXp total).skiller_vs_pvmer = 50) ∧
     (0 < ehb →
        (((3 : ℝ) ≤ (ehp : ℝ) / (ehb : ℝ)) →
          (computePlaystyleScores ehp ehb bosses catXp total).skiller_vs_pvmer = 100) ∧
        (((ehp : ℝ) / (ehb : ℝ) ≤ (1 / 2 : ℝ)) →
          (computePlaystyleScores ehp ehb bosses catXp total).skiller_vs_pvmer = 0) ∧
        ((1 / 2 : ℝ) < (ehp : ℝ) / (ehb : ℝ) → (ehp : ℝ) / (ehb : ℝ) < 3 →
          (computePlaystyleScores ehp ehb bosses catXp total).skiller_vs_pvmer =
            ((ehp : ℝ) / (ehb : ℝ) - 1 / 2) / (3 - 1 / 2) * 100))) := by
  simp only [computePlaystyleScores, ehpEhbRatioSkiller, ehpEhbRatioPvmer]
  refine ⟨?_, ?_, ?_⟩
  · intro h0 hp
    subst h0
    rw [if_neg (by norm_num), if_pos (show (ehp : ℝ) > 0 by exact_mod_cast hp)]
  · intro h0 hp
    subst h0; subst hp
    rw [if_neg (by norm_num), if_neg (by norm_num)]
  · intro hb
    have hbR : ((ehb : ℝ) > 0) := by exact_mod_cast hb
    rw [if_pos hbR]
    refine ⟨?_, ?_, ?_⟩
    · intro h3
      by_cases hgt : (ehp : ℝ) / (ehb : ℝ) > 3
      · rw [if_pos hgt]
      · have heq : (ehp : ℝ) / (ehb : ℝ) = 3 := le_antisymm (not_lt.mp hgt) h3
        rw [if_neg hgt, if_neg (by rw [heq]; norm_num), heq]
        norm_num
    · intro hhalf
      have hngt : ¬ ((ehp : ℝ) / (ehb : ℝ) > 3) := by intro h; linarith
      by_cases hlt : (ehp : ℝ) / (ehb : ℝ) < 1 / 2
      · rw [if_neg hngt, if_pos hlt]
      · have heq : (ehp : ℝ) / (ehb : ℝ) = 1 / 2 := le_antisymm hhalf (not_lt.mp hlt)
        rw [if_neg hngt, if_neg hlt, heq]
        norm_num
    · intro hlo hhi
      have hngt : ¬ ((ehp : ℝ) / (ehb : ℝ) > 3) := by intro h; linarith
      have hnlt : ¬ ((ehp : ℝ) / (ehb : ℝ) < 1 / 2) := by intro h; linarith
      rw [if_neg hngt, if_neg hnlt]

/-- C5 witness: the spec's two scenarios — EHP 100 with EHB 0 gives score
100 through the division-by-zero branch, and EHP 0 with EHB 0 gives 50. -/
theorem c5_skiller_score_witness :
    (computePlaystyleScores 100 0 [] [] 0).skiller_vs_pvmer = 100 ∧
    (computePlaystyleScores 0 0 [] [] 0).skiller_vs_pvmer = 50 :=
  ⟨(c5_skiller_score 100 0 [] [] 0).1 rfl (by norm_num),
   (c5_skiller_score 0 0 [] [] 0).2.1 rfl rfl⟩

/-- C6: `analyze()` is idempotent — a second call recomputes every computed
field (playstyle scores, category XP, top lists, archetype and its
description) from the unchanged skills/bosses/EHP/EHB/account-type inputs
and reaches the identical profile; in particular the account-type prefix is
rebuilt from scratch, never applied twice. -/
theorem c6_analyze_idempotent (p : PlayerProfile) : analyze (analyze p) = analyze p := rfl

/-- C7 counterexample: with one parsable snapshot and one whose `createdAt`
is present but unparsable, the earliest successfully parsed timestamp exists
(the spec's value), yet `build_player_profile` leaves `first_snapshot`
unset: the single `try` wrapping the date loop discards the dates already
collected, so the unparsable snapshot is not individually excluded. -/
theorem c7_counterexample :
    specFirstSnapshot [goodSnap, badSnap] =
      some ⟨2024, 1, 2, 0, 0, 0, 0, 0⟩ ∧
    (buildPlayerProfile {} (some [goodSnap, badSnap])).first_snapshot = none := by
  constructor
  · decide
  · rfl

/-- C7 (amended): a snapshot whose `createdAt` is missing (or empty) is
individually skipped, and no exception escapes; but parse failures are not
individually excluded: when every present `createdAt` parses,
`first_snapshot` is the earliest parsed timestamp, while a single present
unparsable `createdAt` aborts the whole collection and leaves
`first_snapshot` unset even if other snapshots parse. -/
theorem c7_first_snapshot_amended (pd : PlayerPayload) (snaps : List SnapshotPayload) :
    ((∀ s ∈ snaps, ∀ c, s.createdAt = some c → c ≠ "" →
        (parseIso (normalizeZ c)).isSome) →
      (buildPlayerProfile pd (some snaps)).first_snapshot = specFirstSnapshot snaps) ∧
    ((∃ s ∈ snaps, ∃ c, s.createdAt = some c ∧ c ≠ "" ∧
        parseIso (normalizeZ c) = none) →
      (buildPlayerProfile pd (some snaps)).first_snapshot = none) := by
  have hb : (buildPlayerProfile pd (some snaps)).first_snapshot =
      (if snaps ≠ [] then
        match collectDates snaps [] with
        | some (d :: ds) => some (pyMinD d ds)
        | some [] => none
        | none => none
      else none) := rfl
  constructor
  · intro hall
    rw [hb, collectDates_all_parse snaps hall []]
    cases hs : snaps with
    | nil => simp [specFirstSnapshot]
    | cons s rest =>
      rw [← hs]
      have hne : snaps ≠ [] := by rw [hs]; exact List.cons_ne_nil _ _
      rw [if_pos hne]
      simp only [List.nil_append, specFirstSnapshot]
      cases snaps.filterMap (fun s => s.createdAt.bind (fun c => parseIso (normalizeZ c))) with
      | nil => rfl
      | cons d ds => rfl
  · intro hfail
    rw [hb, collectDates_fail snaps hfail []]
    have hne : snaps ≠ [] := by
      obtain ⟨s, hmem, _⟩ := hfail
      exact List.ne_nil_of_mem hmem
    rw [if_pos hne]

/-- C7 witness: the amended theorem applied to a single parsable snapshot. -/
theorem c7_first_snapshot_witness :
    (buildPlayerProfile {} (some [goodSnap2])).first_snapshot =
      specFirstSnapshot [goodSnap2] :=
  (c7_first_snapshot_amended {} [goodSnap2]).1 (by decide)

/-- The milestone scan equals the spec's rule on every timeline (the source's
explicit length guard changes nothing: fewer than two points yield no
consecutive pairs). -/
theorem detectMilestones_eq_spec (tl : List JourneyPoint) :
    detectMilestones tl = specMilestones tl := by
  unfold detectMilestones specMilestones
  by_cases h : 2 ≤ tl.length
  · rw [if_pos h]
  · rw [if_neg h]
    cases tl with
    | nil => rfl
    | cons a rest =>
      cases rest with
      | nil => rfl
      | cons b r => simp at h

/-- C8: the milestones of every journey result follow the spec's rule — one
milestone per consecutive pair and crossed threshold, dated at the later
point — and the spec's concrete scenario: timeline levels [480, 520, 760]
yield exactly two milestones, the 500 crossing dated at index 1 and the 750
crossing dated at index 2. -/
theorem c8_milestones :
    (∀ snaps, (computeJourneyData snaps).milestones =
      specMilestones (computeJourneyData snaps).timeline) ∧
    (computeJourneyData [journeySnap1, journeySnap2, journeySnap3]).timeline.map
      (fun t => t.total_level) = [480, 520, 760] ∧
    (computeJourneyData [journeySnap1, journeySnap2, journeySnap3]).milestones =
      [{ date := ⟨2024, 1, 2, 0, 0, 0, 0, 0⟩, type := "total_level", value := 500,
         description := "Reached 500 total level" },
       { date := ⟨2024, 1, 3, 0, 0, 0, 0, 0⟩, type := "total_level", value := 750,
         description := "Reached 750 total level" }] := by
  have hsorted : ([journeySnap1, journeySnap2, journeySnap3].mergeSort
      (fun a b => pyStrLe (a.createdAt.getD "") (b.createdAt.getD ""))) =
      [journeySnap1, journeySnap2, journeySnap3] :=
    List.mergeSort_of_sorted (by decide)
  refine ⟨?_, ?_, ?_⟩
  · intro snaps
    by_cases h : snaps = []
    · subst h; rfl
    · simp only [computeJourneyData, if_neg h]
      exact detectMilestones_eq_spec _
  · simp only [computeJourneyData, hsorted]
    decide
  · simp only [computeJourneyData, hsorted]
    decide

/-- C10: the journey result's snapshot count is the number of successfully
parsed snapshots (the timeline length), not the input length; in particular
a non-empty input whose entries all lack a parsable `createdAt` produces the
empty timeline, no milestones, snapshot count 0 and the no-data coverage
text. -/
theorem c10_snapshot_count :
    (∀ snaps, (computeJourneyData snaps).snapshot_count =
      ((computeJourneyData snaps).timeline.length : ℤ)) ∧
    (∀ snaps, snaps ≠ [] → (∀ s ∈ snaps, toJourneyPoint s = none) →
      computeJourneyData snaps =
        { timeline := [], milestones := [],
          data_coverage := "No historical data available", snapshot_count := 0 }) := by
  constructor
  · intro snaps
    by_cases h : snaps = []
    · subst h; rfl
    · simp only [computeJourneyData, if_neg h]
  · intro snaps hne hall
    simp only [computeJourneyData, if_neg hne]
    have htl : (snaps.mergeSort
        (fun a b => pyStrLe (a.createdAt.getD "") (b.createdAt.getD ""))).filterMap
        toJourneyPoint = [] :=
      List.filterMap_eq_nil_iff.mpr (fun a ha => hall a (List.mem_mergeSort.mp ha))
    rw [htl]
    rfl

/-- C10 witness: a two-element list with only unparsable or missing
timestamps yields the empty journey result. -/
theorem c10_snapshot_count_witness :
    computeJourneyData [badSnap, { createdAt := none }] =
      { timeline := [], milestones := [],
        data_coverage := "No historical data available", snapshot_count := 0 } :=
  c10_snapshot_count.2 [badSnap, { createdAt := none }] (by decide) (by decide)



/-- Two positions of a list, in order, form a two-element sublist. -/
theorem pair_get_sublist {α : Type} (l : List α) (i j : ℕ)
    (hi : i < l.length) (hj : j < l.length) (hij : i < j) :
    List.Sublist [l.get ⟨i, hi⟩, l.get ⟨j, hj⟩] l := by
  induction l generalizing i j with
  | nil => exact absurd hi (by simp)
  | cons a t ih =>
    cases i with
    | zero =>
      cases j with
      | zero => exact absurd hij (by omega)
      | succ k =>
        simp only [List.get]
        exact (List.singleton_sublist.mpr (t.get_mem k (Nat.succ_lt_succ_iff.mp hj))).cons₂ a
    | succ m =>
      cases j with
      | zero => exact absurd hij (by omega)
      | succ k =>
        simp only [List.get]
        exact (ih m k (by simpa using hi) (by simpa using hj) (by omega)).cons a

/-- In a duplicate-free list, a two-element sublist fixes the index order. -/
theorem indexOf_lt_of_pair_sublist {α : Type} [DecidableEq α] {l : List α} {x y : α}
    (hsub : List.Sublist [x, y] l) (hn : l.Nodup) (hne : x ≠ y) :
    l.indexOf x < l.indexOf y := by
  induction l with
  | nil => simp at hsub
  | cons h t ih =>
    rcases List.nodup_cons.mp hn with ⟨hht, hnt⟩
    cases hsub with
    | cons _ hsub2 =>
      have hx : x ∈ t := hsub2.subset (by simp)
      have hy : y ∈ t := hsub2.subset (by simp)
      have hhx : h ≠ x := fun he => hht (he ▸ hx)
      have hhy : h ≠ y := fun he => hht (he ▸ hy)
      rw [List.indexOf_cons_ne _ hhx, List.indexOf_cons_ne _ hhy]
      exact Nat.succ_lt_succ (ih hsub2 hnt)
    | cons₂ _ hsub2 =>
      have hy : y ∈ t := hsub2.subset (by simp)
      rw [List.indexOf_cons_self]
      rw [List.indexOf_cons_ne _ hne]
      exact Nat.succ_pos _

/-- Two distinct members of a list occur in one of the two orders. -/
theorem mem_pair_sublist {α : Type} {l : List α} {a b : α}
    (ha : a ∈ l) (hb : b ∈ l) (hne : a ≠ b) :
    List.Sublist [a, b] l ∨ List.Sublist [b, a] l := by
  induction l with
  | nil => simp at ha
  | cons c t ih =>
    by_cases hac : a = c
    · subst hac
      have hbt : b ∈ t := by
        rcases List.mem_cons.mp hb with he | h2
        · exact absurd he.symm hne
        · exact h2
      exact Or.inl ((List.singleton_sublist.mpr hbt).cons₂ a)
    · by_cases hbc : b = c
      · subst hbc
        have hat : a ∈ t := by
          rcases List.mem_cons.mp ha with he | h2
          · exact absurd he hac
          · exact h2
        exact Or.inr ((List.singleton_sublist.mpr hat).cons₂ b)
      · have hat : a ∈ t := by
          rcases List.mem_cons.mp ha with he | h2
          · exact absurd he hac
          · exact h2
        have hbt : b ∈ t := by
          rcases List.mem_cons.mp hb with he | h2
          · exact absurd he hbc
          · exact h2
        exact (ih hat hbt).imp (fun h => h.cons c) (fun h => h.cons c)

/-- The descending-by-value comparison is transitive. -/
theorem valueDesc_trans : ∀ a b c : String × ℤ,
    (fun a b : String × ℤ => decide (b.2 ≤ a.2)) a b →
    (fun a b : String × ℤ => decide (b.2 ≤ a.2)) b c →
    (fun a b : String × ℤ => decide (b.2 ≤ a.2)) a c := by
  intro a b c hab hbc
  simp only [decide_eq_true_eq] at hab hbc ⊢
  omega

/-- The descending-by-value comparison is total. -/
theorem valueDesc_total : ∀ a b : String × ℤ,
    ((fun a b : String × ℤ => decide (b.2 ≤ a.2)) a b ||
     (fun a b : String × ℤ => decide (b.2 ≤ a.2)) b a) := by
  intro a b
  simp only [Bool.or_eq_true, decide_eq_true_eq]
  omega

/-- The stable descending sort is sorted by descending value. -/
theorem sortByValueDesc_pairwise (l : List (String × ℤ)) :
    (sortByValueDesc l).Pairwise (fun a b => b.2 ≤ a.2) := by
  have h := List.sorted_mergeSort valueDesc_trans valueDesc_total l
  exact h.imp (fun hab => by simpa using hab)

/-- The stable descending sort preserves freedom from duplicates. -/
theorem sortByValueDesc_nodup (l : List (String × ℤ)) (hn : l.Nodup) :
    (sortByValueDesc l).Nodup :=
  ((List.mergeSort_perm l _).nodup_iff).mpr hn

/-- Stability: a tied pair appearing in the sorted output in some order
already appears in that order in the (duplicate-free) input. -/
theorem sorted_pair_stable (l : List (String × ℤ)) (hn : l.Nodup) {a b : String × ℤ}
    (hpair : List.Sublist [a, b] (sortByValueDesc l)) (hv : a.2 = b.2) :
    List.Sublist [a, b] l := by
  have hnodupS : (sortByValueDesc l).Nodup := sortByValueDesc_nodup l hn
  have hne : a ≠ b := by
    have hp2 : ([a, b] : List (String × ℤ)).Nodup := hpair.nodup hnodupS
    simpa using (List.nodup_cons.mp hp2).1
  have hmema : a ∈ l := List.mem_mergeSort.mp (hpair.subset (by simp))
  have hmemb : b ∈ l := List.mem_mergeSort.mp (hpair.subset (by simp))
  rcases mem_pair_sublist hmema hmemb hne with hab | hba
  · exact hab
  · exfalso
    have hleba : (fun a b : String × ℤ => decide (b.2 ≤ a.2)) b a := by
      simp only [decide_eq_true_eq]
      rw [hv]
    have hstab : List.Sublist [b, a] (sortByValueDesc l) :=
      List.pair_sublist_mergeSort valueDesc_trans valueDesc_total hleba hba
    have h1 := indexOf_lt_of_pair_sublist hpair hnodupS hne
    have h2 := indexOf_lt_of_pair_sublist hstab hnodupS (Ne.symm hne)
    omega

/-- Stability through the top-five truncation: tied entries of the top list
appear in their original input order. -/
theorem topFive_stable (l : List (String × ℤ)) (hn : l.Nodup)
    (i j : ℕ) (hi : i < ((sortByValueDesc l).take 5).length)
    (hj : j < ((sortByValueDesc l).take 5).length) (hij : i < j)
    (hv : (((sortByValueDesc l).take 5).get ⟨i, hi⟩).2 =
          (((sortByValueDesc l).take 5).get ⟨j, hj⟩).2) :
    List.Sublist [((sortByValueDesc l).take 5).get ⟨i, hi⟩,
      ((sortByValueDesc l).take 5).get ⟨j, hj⟩] l :=
  sorted_pair_stable l hn
    ((pair_get_sublist ((sortByValueDesc l).take 5) i j hi hj hij).trans
      (List.take_sublist 5 (sortByValueDesc l))) hv

/-- C9: after `analyze()`, `top_skills` and `top_bosses` have at most five
entries, `top_skills` never contains "overall", `top_bosses` only has
entries with positive kill counts, both are sorted descending by value, and
(given the unique dict keys) tied entries keep the original insertion order
of the skills/bosses map: any tied pair of the top list is a sublist of the
filtered per-entry list, which preserves the map's insertion order. -/
theorem c9_top_lists (p : PlayerProfile)
    (hs : (p.skills.map Prod.fst).Nodup) (hb : (p.bosses.map Prod.fst).Nodup) :
    ((analyze p).top_skills.length ≤ 5 ∧ (analyze p).top_bosses.length ≤ 5) ∧
    (∀ x ∈ (analyze p).top_skills, x.1 ≠ "overall") ∧
    (∀ x ∈ (analyze p).top_bosses, 0 < x.2) ∧
    (analyze p).top_skills.Pairwise (fun x y => y.2 ≤ x.2) ∧
    (analyze p).top_bosses.Pairwise (fun x y => y.2 ≤ x.2) ∧
    (∀ (i j : ℕ) (hi : i < (analyze p).top_skills.length)
        (hj : j < (analyze p).top_skills.length), i < j →
      ((analyze p).top_skills.get ⟨i, hi⟩).2 = ((analyze p).top_skills.get ⟨j, hj⟩).2 →
      List.Sublist
        [(analyze p).top_skills.get ⟨i, hi⟩, (analyze p).top_skills.get ⟨j, hj⟩]
        ((p.skills.filter (fun kv => kv.1 ≠ "overall")).map
          (fun kv => (kv.1, kv.2.experience)))) ∧
    (∀ (i j : ℕ) (hi : i < (analyze p).top_bosses.length)
        (hj : j < (analyze p).top_bosses.length), i < j →
      ((analyze p).top_bosses.get ⟨i, hi⟩).2 = ((analyze p).top_bosses.get ⟨j, hj⟩).2 →
      List.Sublist
        [(analyze p).top_bosses.get ⟨i, hi⟩, (analyze p).top_bosses.get ⟨j, hj⟩]
        ((p.bosses.filter (fun kv => 0 < kv.2.kills)).map
          (fun kv => (kv.1, kv.2.kills)))) := by
  have hns : ((p.skills.filter (fun kv => kv.1 ≠ "overall")).map
      (fun kv => (kv.1, kv.2.experience))).Nodup := by
    have h1 : ((p.skills.filter (fun kv => kv.1 ≠ "overall")).map Prod.fst).Nodup :=
      List.Nodup.sublist ((List.filter_sublist p.skills).map Prod.fst) hs
    have h2 : (((p.skills.filter (fun kv => kv.1 ≠ "overall")).map
        (fun kv => (kv.1, kv.2.experience))).map Prod.fst).Nodup := by
      simpa [List.map_map, Function.comp] using h1
    exact h2.of_map
  have hnb : ((p.bosses.filter (fun kv => 0 < kv.2.kills)).map
      (fun kv => (kv.1, kv.2.kills))).Nodup := by
    have h1 : ((p.bosses.filter (fun kv => 0 < kv.2.kills)).map Prod.fst).Nodup :=
      List.Nodup.sublist ((List.filter_sublist p.bosses).map Prod.fst) hb
    have h2 : (((p.bosses.filter (fun kv => 0 < kv.2.kills)).map
        (fun kv => (kv.1, kv.2.kills))).map Prod.fst).Nodup := by
      simpa [List.map_map, Function.comp] using h1
    exact h2.of_map
  refine ⟨⟨?_, ?_⟩, ?_, ?_, ?_, ?_, ?_, ?_⟩
  · exact List.length_take_le 5 _
  · exact List.length_take_le 5 _
  · intro x hx
    have hx2 : x ∈ sortByValueDesc ((p.skills.filter (fun kv => kv.1 ≠ "overall")).map
        (fun kv => (kv.1, kv.2.experience))) := (List.take_sublist 5 _).subset hx
    have hx3 := List.mem_mergeSort.mp hx2
    simp only [List.mem_map, List.mem_filter] at hx3
    obtain ⟨kv, ⟨hkv, hne⟩, rfl⟩ := hx3
    simpa using hne
  · intro x hx
    have hx2 : x ∈ sortByValueDesc ((p.bosses.filter (fun kv => 0 < kv.2.kills)).map
        (fun kv => (kv.1, kv.2.kills))) := (List.take_sublist 5 _).subset hx
    have hx3 := List.mem_mergeSort.mp hx2
    simp only [List.mem_map, List.mem_filter] at hx3
    obtain ⟨kv, ⟨hkv, hpos⟩, rfl⟩ := hx3
    simpa using hpos
  · exact (sortByValueDesc_pairwise _).sublist (List.take_sublist 5 _)
  · exact (sortByValueDesc_pairwise _).sublist (List.take_sublist 5 _)
  · intro i j hi hj hij hv
    exact topFive_stable _ hns i j hi hj hij hv
  · intro i j hi hj hij hv
    exact topFive_stable _ hnb i j hi hj hij hv

/-- C9 witness: the top-list theorem applied to a profile with tied skill
values (attack and defence both at 100 XP) and tied boss kill counts. -/
theorem c9_top_lists_witness :
    (((analyze tieProfile).top_skills.length ≤ 5 ∧
      (analyze tieProfile).top_bosses.length ≤ 5) ∧
    (∀ x ∈ (analyze tieProfile).top_skills, x.1 ≠ "overall") ∧
    (∀ x ∈ (analyze tieProfile).top_bosses, 0 < x.2) ∧
    (analyze tieProfile).top_skills.Pairwise (fun x y => y.2 ≤ x.2) ∧
    (analyze tieProfile).top_bosses.Pairwise (fun x y => y.2 ≤ x.2) ∧
    (∀ (i j : ℕ) (hi : i < (analyze tieProfile).top_skills.length)
        (hj : j < (analyze tieProfile).top_skills.length), i < j →
      ((analyze tieProfile).top_skills.get ⟨i, hi⟩).2 =
        ((analyze tieProfile).top_skills.get ⟨j, hj⟩).2 →
      List.Sublist
        [(analyze tieProfile).top_skills.get ⟨i, hi⟩,
          (analyze tieProfile).top_skills.get ⟨j, hj⟩]
        ((tieProfile.skills.filter (fun kv => kv.1 ≠ "overall")).map
          (fun kv => (kv.1, kv.2.experience)))) ∧
    (∀ (i j : ℕ) (hi : i < (analyze tieProfile).top_bosses.length)
        (hj : j < (analyze tieProfile).top_bosses.length), i < j →
      ((analyze tieProfile).top_bosses.get ⟨i, hi⟩).2 =
        ((analyze tieProfile).top_bosses.get ⟨j, hj⟩).2 →
      List.Sublist
        [(analyze tieProfile).top_bosses.get ⟨i, hi⟩,
          (analyze tieProfile).top_bosses.get ⟨j, hj⟩]
        ((tieProfile.bosses.filter (fun kv => 0 < kv.2.kills)).map
          (fun kv => (kv.1, kv.2.kills))))) :=
  c9_top_lists tieProfile (by decide) (by decide)

end PlayerPath
